import Mathlib

/-!
Verification of the AudioCheck voice-pipeline server (`server/index.ts`)
against its natural-language specification.

The server handles two variants:
* a live WebSocket session (`wss.on('connection')`, lines 119-224): each
  incoming binary message is written to a temp `.webm` file, transcoded to
  `.wav` via ffmpeg, transcribed (Whisper), appended to the per-connection
  `conversationHistory`, answered by a chat completion (GPT-4), the answer
  appended, synthesized (TTS) and sent back as one binary message; any
  thrown error is caught and a single JSON error message is sent;
* a single-file HTTP endpoint (`app.post('/api/voice')`, lines 242-291).

The four external engine calls (ffmpeg transcode, transcription, chat
completion, speech synthesis) are modelled by an oracle `Env` fixing each
call's outcome for one run; the handler itself is a pure function of the
oracle and the session state, recording the messages it emits and the
engine calls it performs.
-/

namespace AudioCheck

/-- Conversation roles, as in the `conversationHistory` element type
(`index.ts` line 124). -/
inductive Role where
  | system
  | user
  | assistant
deriving DecidableEq, Repr

/-- One conversation turn: `{ role, content }` (`index.ts` line 124). -/
structure Turn where
  role : Role
  content : String
deriving DecidableEq, Repr

/-- The fixed agent persona (`SYSTEM_PROMPT`, `index.ts` lines 60-89).
Only its identity matters to the claims, so the multi-page persona text is
abbreviated to its first sentence; no code path inspects this string. -/
def SYSTEM_PROMPT : String :=
  "You are an expert computer parts sales agent with deep knowledge of current PC components, their features, and market prices."

/-- The initial turn every live connection starts with (`index.ts` 124-126). -/
def systemTurn : Turn := ⟨Role.system, SYSTEM_PROMPT⟩

/-- Fallback reply when the chat completion content is null or empty, live
variant (`index.ts` line 186, the right operand of the JS `||`). -/
def FALLBACK_LIVE : String := "I apologize, but I could not generate a response."

/-- Fallback reply in the `/api/voice` variant (`index.ts` line 270). -/
def FALLBACK_API : String := "Sorry, I could not process that."

/-- The fixed `error` field of every error message the catch block sends
(`index.ts` line 209). -/
def ERROR_TEXT : String := "Error processing audio."

/-- Outcome of one external engine call: either its value, or the message
of the exception it throws. -/
inductive StepRes (α : Type) where
  | ok : α → StepRes α
  | fail : String → StepRes α
deriving DecidableEq, Repr

/-- Oracle fixing the outcome of each external call during one pipeline
run of the live handler.  `chat` carries the completion content, which the
API types as nullable (`message.content`, `index.ts` line 186). -/
structure Env where
  transcode : StepRes Unit
  transcribe : StepRes String
  chat : StepRes (Option String)
  synth : StepRes (List Nat)
deriving DecidableEq, Repr

/-- Messages the server sends on the WebSocket (`index.ts` lines 129, 202,
207-211). -/
inductive OutMsg where
  | audio : List Nat → OutMsg
  | errorMsg : String → String → OutMsg
  | connection : String → OutMsg
deriving DecidableEq, Repr

/-- A record of one external engine invocation, with the payload it was
given where a claim depends on it. -/
inductive EngineCall where
  | transcode
  | transcribe
  | chat : List Turn → EngineCall
  | synth : String → EngineCall
deriving DecidableEq, Repr

/-- Incoming WebSocket message: `message instanceof Buffer` distinguishes
binary audio from anything else (`index.ts` line 144). -/
inductive InMsg where
  | binary : List Nat → InMsg
  | text : String → InMsg
deriving DecidableEq, Repr

/-- Per-connection mutable state touched by the message handler: the
conversation history and whether the two temp files currently exist on
disk (`webmPath` / `wavPath`, `index.ts` lines 150-151). -/
structure RunState where
  history : List Turn
  webmExists : Bool
  wavExists : Bool
deriving DecidableEq, Repr

/-- State of a fresh connection (`index.ts` lines 124-126): history holds
the single system turn, no temp files on disk. -/
def initConnState : RunState := ⟨[systemTurn], false, false⟩

/-- Result of one run of the message handler: the final state, the
messages sent to the client, and the engine calls made, in order. -/
structure RunOut where
  state : RunState
  emitted : List OutMsg
  calls : List EngineCall
deriving DecidableEq, Repr

/-- JS `content || fallback`: both `null` and the empty string are falsy
(`index.ts` lines 186 and 270). -/
def aiText (fallback : String) (content : Option String) : String :=
  match content with
  | none => fallback
  | some s => if s = "" then fallback else s

/-- The `ws.on('message')` handler (`index.ts` lines 142-213), one
invocation on one incoming message.

Control flow of the source, step by step:
* non-Buffer message: log and `return` — nothing sent, nothing mutated;
* `fs.writeFileSync(webmPath, message)` (line 154) — the webm temp file
  now exists;
* `await convertWebmToWav` (line 157) — on success the wav temp file
  exists; on throw, control jumps to the catch block;
* `await openai.audio.transcriptions.create` (lines 160-167);
* `fs.unlinkSync(webmPath); fs.unlinkSync(wavPath)` (lines 170-171) —
  reached only when transcription succeeded;
* push the `user` turn (line 174);
* `await openai.chat.completions.create` with the full
  `conversationHistory` (lines 177-184);
* push the `assistant` turn with `content || fallback` (lines 186-189);
* `await openai.audio.speech.create` on the assistant text (192-198);
* `ws.send(buffer)` (line 202);
* the catch block (lines 204-212) sends one JSON error message with the
  fixed text and the exception message as `details`. -/
def handleMessage (env : Env) (msg : InMsg) (st : RunState) : RunOut :=
  match msg with
  | InMsg.text _ => ⟨st, [], []⟩
  | InMsg.binary _bytes =>
    let st1 : RunState := { st with webmExists := true }
    match env.transcode with
    | StepRes.fail e => ⟨st1, [OutMsg.errorMsg ERROR_TEXT e], [EngineCall.transcode]⟩
    | StepRes.ok _ =>
      let st2 : RunState := { st1 with wavExists := true }
      match env.transcribe with
      | StepRes.fail e =>
          ⟨st2, [OutMsg.errorMsg ERROR_TEXT e],
            [EngineCall.transcode, EngineCall.transcribe]⟩
      | StepRes.ok transcription =>
        let st3 : RunState := { st2 with webmExists := false, wavExists := false }
        let st4 : RunState :=
          { st3 with history := st3.history ++ [⟨Role.user, transcription⟩] }
        match env.chat with
        | StepRes.fail e =>
            ⟨st4, [OutMsg.errorMsg ERROR_TEXT e],
              [EngineCall.transcode, EngineCall.transcribe,
                EngineCall.chat st4.history]⟩
        | StepRes.ok content =>
          let aiResponse := aiText FALLBACK_LIVE content
          let st5 : RunState :=
            { st4 with history := st4.history ++ [⟨Role.assistant, aiResponse⟩] }
          match env.synth with
          | StepRes.fail e =>
              ⟨st5, [OutMsg.errorMsg ERROR_TEXT e],
                [EngineCall.transcode, EngineCall.transcribe,
                  EngineCall.chat st4.history, EngineCall.synth aiResponse]⟩
          | StepRes.ok bytes =>
              ⟨st5, [OutMsg.audio bytes],
                [EngineCall.transcode, EngineCall.transcribe,
                  EngineCall.chat st4.history, EngineCall.synth aiResponse]⟩

/-- The conversation turns one handler run appends, as a function of where
(if anywhere) the run fails.  Spec-side characterization used to state the
frame properties; compare with `handleMessage`. -/
def appendedTurns : Env → List Turn
  | ⟨StepRes.fail _, _, _, _⟩ => []
  | ⟨StepRes.ok _, StepRes.fail _, _, _⟩ => []
  | ⟨StepRes.ok _, StepRes.ok t, StepRes.fail _, _⟩ => [⟨Role.user, t⟩]
  | ⟨StepRes.ok _, StepRes.ok t, StepRes.ok c, _⟩ =>
      [⟨Role.user, t⟩, ⟨Role.assistant, aiText FALLBACK_LIVE c⟩]

/-- An oracle under which all four engine calls succeed. -/
def Env.allOk : Env → Bool
  | ⟨StepRes.ok _, StepRes.ok _, StepRes.ok _, StepRes.ok _⟩ => true
  | _ => false

/-- The exception message of the first failing step, if any. -/
def firstFailure : Env → Option String
  | ⟨StepRes.fail m, _, _, _⟩ => some m
  | ⟨StepRes.ok _, StepRes.fail m, _, _⟩ => some m
  | ⟨StepRes.ok _, StepRes.ok _, StepRes.fail m, _⟩ => some m
  | ⟨StepRes.ok _, StepRes.ok _, StepRes.ok _, StepRes.fail m⟩ => some m
  | ⟨StepRes.ok _, StepRes.ok _, StepRes.ok _, StepRes.ok _⟩ => none

/-- Sequential composition: each message handled to completion before the
next one arrives (one oracle per run; the payload bytes never influence
the handler, so a placeholder chunk is passed). -/
def runSeq (envs : List Env) (st : RunState) : RunState :=
  match envs with
  | [] => st
  | e :: rest => runSeq rest (handleMessage e (InMsg.binary [0]) st).state

/-- The chat payloads among a list of engine calls. -/
def chatPayloads (calls : List EngineCall) : List (List Turn) :=
  calls.filterMap fun c =>
    match c with
    | EngineCall.chat ms => some ms
    | _ => none

/-!
Interleaving model of the live handler.  `ws.on('message', async ...)`
spawns a new async handler invocation per message with no gating flag and
no queue; each `await` (transcode, transcribe, chat, synth) is a
suspension point at which the event loop may run other invocations of the
same handler on the same connection.  A task is one handler invocation,
identified by the await it is suspended at; `conversationHistory` is the
state shared by all of them.
-/

/-- The suspension point a handler invocation is parked at. -/
inductive Phase where
  | awaitTranscode
  | awaitTranscribe
  | awaitChat
  | awaitSynth
  | finished
deriving DecidableEq, Repr

/-- State of one live connection with possibly several handler
invocations in flight. -/
structure LiveState where
  history : List Turn
  tasks : List (Phase × Env)
  emitted : List OutMsg
deriving DecidableEq, Repr

/-- A live connection with no pending messages. -/
def initLive : LiveState := ⟨[systemTurn], [], []⟩

/-- Scheduler events: a binary message arrives (the handler runs
synchronously up to its first `await`), or the await of task `i`
resolves and the task runs to its next suspension point. -/
inductive Ev where
  | arrive : Env → Ev
  | resume : Nat → Ev
deriving DecidableEq, Repr

/-- Advance one task from its current suspension point to the next,
performing the shared-state mutations the source performs between the two
awaits (`index.ts` lines 142-212). -/
def stepTask (env : Env) (p : Phase) (hist : List Turn) :
    Phase × List Turn × List OutMsg :=
  match p with
  | Phase.awaitTranscode =>
    match env.transcode with
    | StepRes.fail e => (Phase.finished, hist, [OutMsg.errorMsg ERROR_TEXT e])
    | StepRes.ok _ => (Phase.awaitTranscribe, hist, [])
  | Phase.awaitTranscribe =>
    match env.transcribe with
    | StepRes.fail e => (Phase.finished, hist, [OutMsg.errorMsg ERROR_TEXT e])
    | StepRes.ok t => (Phase.awaitChat, hist ++ [⟨Role.user, t⟩], [])
  | Phase.awaitChat =>
    match env.chat with
    | StepRes.fail e => (Phase.finished, hist, [OutMsg.errorMsg ERROR_TEXT e])
    | StepRes.ok c =>
        (Phase.awaitSynth, hist ++ [⟨Role.assistant, aiText FALLBACK_LIVE c⟩], [])
  | Phase.awaitSynth =>
    match env.synth with
    | StepRes.fail e => (Phase.finished, hist, [OutMsg.errorMsg ERROR_TEXT e])
    | StepRes.ok b => (Phase.finished, hist, [OutMsg.audio b])
  | Phase.finished => (Phase.finished, hist, [])

/-- One scheduler step on the connection. -/
def stepEv (st : LiveState) (ev : Ev) : LiveState :=
  match ev with
  | Ev.arrive env => { st with tasks := st.tasks ++ [(Phase.awaitTranscode, env)] }
  | Ev.resume i =>
    match st.tasks[i]? with
    | none => st
    | some (p, env) =>
      let r := stepTask env p st.history
      { history := r.2.1, tasks := st.tasks.set i (r.1, env),
        emitted := st.emitted ++ r.2.2 }

/-- Run a schedule of events. -/
def runSched (evs : List Ev) (st : LiveState) : LiveState := evs.foldl stepEv st

/-- Number of handler invocations started but not yet finished. -/
def inFlight (st : LiveState) : Nat :=
  st.tasks.countP fun t =>
    match t.1 with
    | Phase.finished => false
    | _ => true

/-!
Session registry and keep-alive timer (`index.ts` lines 103 and 119-229).
`activeConnections` is a process-wide `Map`; each connection also owns a
`setInterval` ping timer.  The registry is modelled as the list of
registered connection ids and the list of ids with a live timer.
-/

/-- Process-wide registry state: registered connection ids and ids whose
ping interval is still running. -/
structure RegState where
  conns : List Nat
  timers : List Nat
deriving DecidableEq, Repr

/-- JS `Map.set`: overwrite or insert; on a fresh id this appends. -/
def mapSet (id : Nat) (l : List Nat) : List Nat :=
  if id ∈ l then l else l ++ [id]

/-- The `wss.on('connection')` prologue (`index.ts` lines 119-136):
`activeConnections.set(connectionId, ws)` and `setInterval(...)`. -/
def onConnection (id : Nat) (r : RegState) : RegState :=
  ⟨mapSet id r.conns, mapSet id r.timers⟩

/-- The `ws.on('error')` handler (`index.ts` lines 215-217): it only logs
the error; neither the registry nor the timer is touched. -/
def onWsError (_id : Nat) (r : RegState) : RegState := r

/-- The `ws.on('close')` handler (`index.ts` lines 219-223):
`clearInterval(pingInterval)` and `activeConnections.delete(connectionId)`. -/
def onWsClose (id : Nat) (r : RegState) : RegState :=
  ⟨r.conns.erase id, r.timers.erase id⟩

/-!
The single-file request/response variant `app.post('/api/voice')`
(`index.ts` lines 242-291): no transcoding, no conversation history — the
chat engine is called with one freshly built user message.
-/

/-- Oracle for one `/api/voice` request (it performs no transcode step). -/
structure ApiEnv where
  transcribe : StepRes String
  chat : StepRes (Option String)
  synth : StepRes (List Nat)
deriving DecidableEq, Repr

/-- HTTP response of `/api/voice`: the audio body, or a JSON error with a
status code. -/
inductive ApiResp where
  | audioReply : List Nat → ApiResp
  | jsonError : Nat → String → ApiResp
deriving DecidableEq, Repr

/-- The `/api/voice` handler (`index.ts` lines 242-291): 400 when no file
was uploaded; otherwise transcribe the upload, call the chat engine with
the single message `[{ role: user, content: transcription.text }]`
(lines 256-264), synthesize `content || fallback` (lines 267-271), and
answer with the audio bytes; any throw is answered with a 500 JSON error
(lines 287-290). -/
def apiVoice (env : ApiEnv) (filePresent : Bool) : ApiResp × List EngineCall :=
  if filePresent = false then (ApiResp.jsonError 400 "No audio file uploaded.", [])
  else
    match env.transcribe with
    | StepRes.fail _ => (ApiResp.jsonError 500 ERROR_TEXT, [EngineCall.transcribe])
    | StepRes.ok t =>
      match env.chat with
      | StepRes.fail _ =>
          (ApiResp.jsonError 500 ERROR_TEXT,
            [EngineCall.transcribe, EngineCall.chat [⟨Role.user, t⟩]])
      | StepRes.ok c =>
        let reply := aiText FALLBACK_API c
        match env.synth with
        | StepRes.fail _ =>
            (ApiResp.jsonError 500 ERROR_TEXT,
              [EngineCall.transcribe, EngineCall.chat [⟨Role.user, t⟩],
                EngineCall.synth reply])
        | StepRes.ok b =>
            (ApiResp.audioReply b,
              [EngineCall.transcribe, EngineCall.chat [⟨Role.user, t⟩],
                EngineCall.synth reply])

/-!
Concrete oracles used by counterexamples and witnesses.
-/

/-- A run in which every engine call succeeds. -/
def envOk : Env :=
  ⟨StepRes.ok (), StepRes.ok "hello", StepRes.ok (some "reply"), StepRes.ok [1, 2, 3]⟩

/-- A fully successful run whose transcript is empty. -/
def envEmptyT : Env :=
  ⟨StepRes.ok (), StepRes.ok "", StepRes.ok (some "Hi there"), StepRes.ok [7]⟩

/-- A run failing at the transcoding step. -/
def envTcFail : Env :=
  ⟨StepRes.fail "boom", StepRes.ok "hello", StepRes.ok (some "reply"), StepRes.ok [1]⟩

/-- A run failing at the transcription step. -/
def envTrFail : Env :=
  ⟨StepRes.ok (), StepRes.fail "bad audio", StepRes.ok (some "reply"), StepRes.ok [1]⟩

/-- A run failing at the chat-completion step. -/
def envChatFail : Env :=
  ⟨StepRes.ok (), StepRes.ok "hi", StepRes.fail "boom", StepRes.ok [1]⟩

/-- A fully successful run transcribing to `"a"`. -/
def envA : Env :=
  ⟨StepRes.ok (), StepRes.ok "a", StepRes.ok (some "ra"), StepRes.ok [1]⟩

/-- A fully successful run transcribing to `"b"`. -/
def envB : Env :=
  ⟨StepRes.ok (), StepRes.ok "b", StepRes.ok (some "rb"), StepRes.ok [2]⟩

/-- A successful `/api/voice` oracle. -/
def apiEnvOk : ApiEnv :=
  ⟨StepRes.ok "hello", StepRes.ok (some "reply"), StepRes.ok [9]⟩

section Lemmas

/-- Key frame lemma: one handler run on a binary message changes the
history exactly by appending `appendedTurns env`. -/
theorem handle_history_append (env : Env) (bytes : List Nat) (st : RunState) :
    (handleMessage env (InMsg.binary bytes) st).state.history
      = st.history ++ appendedTurns env := by
  obtain ⟨tc, tr, ch, sy⟩ := env
  cases tc <;> cases tr <;> cases ch <;> cases sy <;>
    simp [handleMessage, appendedTurns]

/-- Sequential runs append the concatenation of each run's turns. -/
theorem runSeq_history (envs : List Env) (st : RunState) :
    (runSeq envs st).history = st.history ++ (envs.map appendedTurns).flatten := by
  induction envs generalizing st with
  | nil => simp [runSeq]
  | cons e es ih =>
      simp [runSeq, ih, handle_history_append, List.append_assoc]

/-- A fully successful run appends exactly a user and an assistant turn. -/
theorem allOk_appended_roles (e : Env) (h : e.allOk = true) :
    (appendedTurns e).map Turn.role = [Role.user, Role.assistant] := by
  obtain ⟨tc, tr, ch, sy⟩ := e
  cases tc <;> cases tr <;> cases ch <;> cases sy <;>
    simp_all [Env.allOk, appendedTurns]

/-- A fully successful run appends exactly two turns. -/
theorem allOk_appended_length (e : Env) (h : e.allOk = true) :
    (appendedTurns e).length = 2 := by
  have := allOk_appended_roles e h
  have h2 : ((appendedTurns e).map Turn.role).length = 2 := by rw [this]; rfl
  simpa using h2

/-- Turns appended by a list of fully successful runs, counted. -/
theorem join_appended_length (envs : List Env) (h : ∀ e ∈ envs, e.allOk = true) :
    ((envs.map appendedTurns).flatten).length = 2 * envs.length := by
  induction envs with
  | nil => simp
  | cons e es ih =>
      simp only [List.map_cons, List.flatten_cons, List.length_append, List.length_cons]
      rw [allOk_appended_length e (h e (by simp))]
      rw [ih (fun x hx => h x (by simp [hx]))]
      ring

/-- Roles appended by a list of fully successful runs. -/
theorem join_appended_roles (envs : List Env) (h : ∀ e ∈ envs, e.allOk = true) :
    ((envs.map appendedTurns).flatten).map Turn.role
      = (List.replicate envs.length [Role.user, Role.assistant]).flatten := by
  induction envs with
  | nil => simp
  | cons e es ih =>
      simp only [List.map_cons, List.flatten_cons, List.length_cons, List.replicate_succ,
        List.map_append]
      rw [allOk_appended_roles e (h e (by simp))]
      rw [ih (fun x hx => h x (by simp [hx]))]

end Lemmas

section Claims

/-- C1 (amended): every binary message — including one with an empty
payload — triggers a pipeline run that emits exactly one result message to
the session channel, either one binary audio message or one structured
error message.  (The handler has no utterance buffer and no silent
empty-buffer path; see the counterexample.) -/
theorem binary_message_emits_exactly_one (env : Env) (bytes : List Nat) (st : RunState) :
    (handleMessage env (InMsg.binary bytes) st).emitted.length = 1 ∧
    ((∃ b, (handleMessage env (InMsg.binary bytes) st).emitted = [OutMsg.audio b]) ∨
     (∃ d, (handleMessage env (InMsg.binary bytes) st).emitted
        = [OutMsg.errorMsg ERROR_TEXT d])) := by
  obtain ⟨tc, tr, ch, sy⟩ := env
  cases tc <;> cases tr <;> cases ch <;> cases sy <;> simp [handleMessage]

/-- C1 counterexample: the claim says a run on an empty utterance emits
nothing at all; in the code an empty binary payload runs the pipeline like
any other message and one message is emitted. -/
theorem empty_payload_emits_cex :
    (handleMessage envOk (InMsg.binary []) initConnState).emitted ≠ [] := by decide

/-- C2 (amended): nothing gates pipeline starts — each arriving binary
message immediately starts a new pipeline run (one more task in flight)
regardless of how many runs are already in flight for the session. -/
theorem arrive_always_starts_pipeline (st : LiveState) (env : Env) :
    inFlight (stepEv st (Ev.arrive env)) = inFlight st + 1 := by
  simp [stepEv, inFlight, List.countP_append]

/-- C2 counterexample: two messages arriving in rapid succession put two
pipeline runs in flight simultaneously, and a schedule interleaving their
awaits mutates the shared conversation out of order (two consecutive user
turns, the second message's turn first). -/
theorem concurrent_pipelines_cex :
    ¬ (inFlight (runSched [Ev.arrive envA, Ev.arrive envB] initLive) ≤ 1) ∧
    (runSched [Ev.arrive envA, Ev.arrive envB, Ev.resume 0, Ev.resume 1,
        Ev.resume 1, Ev.resume 0] initLive).history
      = [systemTurn, ⟨Role.user, "b"⟩, ⟨Role.user, "a"⟩] := by decide

/-- C3 (amended): an empty or whitespace-only transcript is treated like
any other transcript — the user turn (with that content) is appended and
the chat engine is invoked on the updated history; there is no
empty-transcript check, so the conversation grows. -/
theorem transcript_always_appended (env : Env) (bytes : List Nat) (st : RunState)
    (t : String) (h1 : env.transcode = StepRes.ok ())
    (h2 : env.transcribe = StepRes.ok t) :
    EngineCall.chat (st.history ++ [⟨Role.user, t⟩])
        ∈ (handleMessage env (InMsg.binary bytes) st).calls ∧
    st.history.length + 1 ≤ (handleMessage env (InMsg.binary bytes) st).state.history.length := by
  obtain ⟨tc, tr, ch, sy⟩ := env
  cases tc <;> cases tr <;> cases ch <;> cases sy <;> simp_all [handleMessage]

/-- C3 witness: concrete run with an empty transcript in which the chat
engine is called with the empty-content user turn. -/
theorem transcript_always_appended_witness :
    envEmptyT.transcode = StepRes.ok () ∧ envEmptyT.transcribe = StepRes.ok "" ∧
    EngineCall.chat (initConnState.history ++ [⟨Role.user, ""⟩])
      ∈ (handleMessage envEmptyT (InMsg.binary [1]) initConnState).calls := by
  have h := transcript_always_appended envEmptyT [1] initConnState "" rfl rfl
  exact ⟨rfl, rfl, h.1⟩

/-- C3 counterexample: a successful run whose transcript is empty changes
the conversation length (claim says unchanged) and calls the chat engine
(claim says it is not called). -/
theorem empty_transcript_not_noop_cex :
    (handleMessage envEmptyT (InMsg.binary [1]) initConnState).state.history.length
        ≠ initConnState.history.length ∧
    EngineCall.chat [systemTurn, ⟨Role.user, ""⟩]
        ∈ (handleMessage envEmptyT (InMsg.binary [1]) initConnState).calls := by decide

/-- C4: after N fully successful sequential pipeline runs the conversation
has exactly 1 + 2N turns, the first is the unmodified system turn, and the
rest strictly alternate user, assistant, ... in submission order. -/
theorem conversation_shape_after_success (envs : List Env)
    (h : ∀ e ∈ envs, e.allOk = true) :
    (runSeq envs initConnState).history.length = 1 + 2 * envs.length ∧
    (runSeq envs initConnState).history.head? = some systemTurn ∧
    (runSeq envs initConnState).history.map Turn.role
      = Role.system :: (List.replicate envs.length [Role.user, Role.assistant]).flatten := by
  have hh := runSeq_history envs initConnState
  refine ⟨?_, ?_, ?_⟩
  · rw [hh]
    simp [initConnState, join_appended_length envs h]
    omega
  · rw [hh]
    simp [initConnState]
  · rw [hh]
    simp [initConnState, systemTurn, join_appended_roles envs h]

/-- C4 witness: two fully successful runs yield five turns with roles
system, user, assistant, user, assistant. -/
theorem conversation_shape_after_success_witness :
    (∀ e ∈ [envOk, envOk], Env.allOk e = true) ∧
    (runSeq [envOk, envOk] initConnState).history.length = 1 + 2 * 2 ∧
    (runSeq [envOk, envOk] initConnState).history.map Turn.role
      = Role.system :: (List.replicate 2 [Role.user, Role.assistant]).flatten := by
  have h := conversation_shape_after_success [envOk, envOk] (by decide)
  exact ⟨by decide, h.1, h.2.2⟩

/-- C5: mutations before the failing step are kept, nothing after it is
applied — a transcoding or transcription failure leaves the history
exactly as before the run, a chat-completion failure leaves exactly the
new user turn appended, and a synthesis failure leaves exactly the user
and assistant turns appended. -/
theorem history_kept_up_to_failing_step (env : Env) (bytes : List Nat) (st : RunState) :
    ((∃ m, env.transcode = StepRes.fail m) →
       (handleMessage env (InMsg.binary bytes) st).state.history = st.history) ∧
    (∀ m, env.transcode = StepRes.ok () → env.transcribe = StepRes.fail m →
       (handleMessage env (InMsg.binary bytes) st).state.history = st.history) ∧
    (∀ t m, env.transcode = StepRes.ok () → env.transcribe = StepRes.ok t →
       env.chat = StepRes.fail m →
       (handleMessage env (InMsg.binary bytes) st).state.history
         = st.history ++ [⟨Role.user, t⟩]) ∧
    (∀ t c m, env.transcode = StepRes.ok () → env.transcribe = StepRes.ok t →
       env.chat = StepRes.ok c → env.synth = StepRes.fail m →
       (handleMessage env (InMsg.binary bytes) st).state.history
         = st.history ++ [⟨Role.user, t⟩, ⟨Role.assistant, aiText FALLBACK_LIVE c⟩]) := by
  obtain ⟨tc, tr, ch, sy⟩ := env
  cases tc <;> cases tr <;> cases ch <;> cases sy <;>
    refine ⟨?_, ?_, ?_, ?_⟩ <;> intros <;> simp_all [handleMessage]

/-- C5 witness: a chat-completion failure leaves exactly the just-appended
user turn in the history. -/
theorem history_kept_up_to_failing_step_witness :
    envChatFail.chat = StepRes.fail "boom" ∧
    (handleMessage envChatFail (InMsg.binary [1]) initConnState).state.history
      = initConnState.history ++ [⟨Role.user, "hi"⟩] := by
  have h := (history_kept_up_to_failing_step envChatFail [1] initConnState).2.2.1
    "hi" "boom" rfl rfl rfl
  exact ⟨rfl, h⟩

/-- C6 (amended): every failure inside a run is caught at the pipeline
boundary and reported as exactly one structured error message whose
`error` field is the fixed text and whose `details` field is the failing
exception's message; the message carries no code distinguishing which step
failed. -/
theorem failure_reported_generic_error (env : Env) (bytes : List Nat) (st : RunState)
    (d : String) (h : firstFailure env = some d) :
    (handleMessage env (InMsg.binary bytes) st).emitted
      = [OutMsg.errorMsg ERROR_TEXT d] := by
  obtain ⟨tc, tr, ch, sy⟩ := env
  cases tc <;> cases tr <;> cases ch <;> cases sy <;>
    simp_all [handleMessage, firstFailure]

/-- C6 witness: a transcode failure is reported as the fixed structured
error message. -/
theorem failure_reported_generic_error_witness :
    firstFailure envTcFail = some "boom" ∧
    (handleMessage envTcFail (InMsg.binary [1]) initConnState).emitted
      = [OutMsg.errorMsg ERROR_TEXT "boom"] :=
  ⟨rfl, failure_reported_generic_error envTcFail [1] initConnState "boom" rfl⟩

/-- C6 counterexample: a transcoding failure and a chat-completion failure
with the same exception text produce byte-identical error messages, so no
field of the message distinguishes which step failed — contradicting the
claimed step-distinguishing code (transcode_failed, transcription_failed,
completion_failed, synthesis_failed). -/
theorem error_code_not_distinguishing_cex :
    (handleMessage envTcFail (InMsg.binary [1]) initConnState).emitted
      = (handleMessage envChatFail (InMsg.binary [1]) initConnState).emitted ∧
    (handleMessage envTcFail (InMsg.binary [1]) initConnState).emitted
      = [OutMsg.errorMsg ERROR_TEXT "boom"] := by decide

/-- C7 (amended): the two temporary files are removed exactly on runs
whose transcription step succeeds — including runs that later fail at the
chat-completion or synthesis step; a transcoding or transcription failure
jumps to the catch block, which does not remove them. -/
theorem temp_files_removed_after_transcription (env : Env) (bytes : List Nat)
    (st : RunState) (h1 : env.transcode = StepRes.ok ())
    (h2 : ∃ t, env.transcribe = StepRes.ok t) :
    (handleMessage env (InMsg.binary bytes) st).state.webmExists = false ∧
    (handleMessage env (InMsg.binary bytes) st).state.wavExists = false := by
  obtain ⟨t, ht⟩ := h2
  obtain ⟨tc, tr, ch, sy⟩ := env
  cases tc <;> cases tr <;> cases ch <;> cases sy <;> simp_all [handleMessage]

/-- C7 witness: a fully successful run leaves no temp files. -/
theorem temp_files_removed_after_transcription_witness :
    envOk.transcode = StepRes.ok () ∧
    (handleMessage envOk (InMsg.binary [1]) initConnState).state.webmExists = false ∧
    (handleMessage envOk (InMsg.binary [1]) initConnState).state.wavExists = false := by
  have h := temp_files_removed_after_transcription envOk [1] initConnState rfl
    ⟨"hello", rfl⟩
  exact ⟨rfl, h.1, h.2⟩

/-- C7 counterexample: a run failing at the transcription step finishes
with the webm temp file still on disk, refuting cleanup on every failure
path. -/
theorem temp_files_left_on_failure_cex :
    ¬ ((handleMessage envTrFail (InMsg.binary [1]) initConnState).state.webmExists = false ∧
       (handleMessage envTrFail (InMsg.binary [1]) initConnState).state.wavExists = false) := by
  decide

/-- C8 (amended): every binary message immediately triggers a full
pipeline run — the transcoding engine is invoked on every chunk arrival;
there is no utterance buffer and no separate utterance-boundary signal. -/
theorem every_chunk_runs_pipeline (env : Env) (bytes : List Nat) (st : RunState) :
    EngineCall.transcode ∈ (handleMessage env (InMsg.binary bytes) st).calls := by
  obtain ⟨tc, tr, ch, sy⟩ := env
  cases tc <;> cases tr <;> cases ch <;> cases sy <;> simp [handleMessage]

/-- C8 counterexample: the arrival of a single binary chunk itself starts
a pipeline run (engine calls are made and a result is emitted), refuting
the claim that a chunk arrival only appends to a buffer. -/
theorem chunk_triggers_pipeline_cex :
    (handleMessage envOk (InMsg.binary [5]) initConnState).calls ≠ [] ∧
    (handleMessage envOk (InMsg.binary [5]) initConnState).emitted ≠ [] := by decide

/-- C9 (amended): the close handler removes the session from the registry
and releases its keep-alive timer, returning both to their pre-connection
state; the error handler itself mutates neither, so teardown after a
channel error happens only through the close event that may follow. -/
theorem close_teardown_restores_registry (id : Nat) (r : RegState)
    (h1 : id ∉ r.conns) (h2 : id ∉ r.timers) :
    onWsClose id (onConnection id r) = r ∧
    (∀ s : RegState, onWsError id s = s) := by
  obtain ⟨cs, ts⟩ := r
  refine ⟨?_, fun s => rfl⟩
  simp only [onWsClose, onConnection, mapSet, RegState.mk.injEq]
  rw [if_neg h1, if_neg h2]
  constructor
  · rw [List.erase_append_right _ (by simpa using h1)]
    simp
  · rw [List.erase_append_right _ (by simpa using h2)]
    simp

/-- C9 witness: opening then closing a connection restores the empty
registry and leaves no timer. -/
theorem close_teardown_restores_registry_witness :
    (1 ∉ (RegState.mk [] []).conns) ∧
    onWsClose 1 (onConnection 1 ⟨[], []⟩) = ⟨[], []⟩ := by
  have h := close_teardown_restores_registry 1 ⟨[], []⟩ (by decide) (by decide)
  exact ⟨by decide, h.1⟩

/-- C9 counterexample: after a connection is opened, a channel error event
alone removes nothing — the registry entry and the timer are both still
present, so registry size does not return to its pre-connection count. -/
theorem error_handler_no_teardown_cex :
    (onWsError 1 (onConnection 1 ⟨[], []⟩)).conns ≠ [] ∧
    (onWsError 1 (onConnection 1 ⟨[], []⟩)).timers ≠ [] := by decide

/-- C10: the single-file variant invokes the chat engine with exactly one
message — a single user turn holding the transcript, no system persona and
no history — while the live variant invokes it with the full conversation
history (which starts with the system turn) ending in the new user turn. -/
theorem api_chat_single_user_message (env : ApiEnv) (t : String)
    (h : env.transcribe = StepRes.ok t) :
    chatPayloads (apiVoice env true).2 = [[⟨Role.user, t⟩]] ∧
    (∀ (e : Env) (st : RunState) (bytes : List Nat),
      e.transcode = StepRes.ok () → e.transcribe = StepRes.ok t →
      chatPayloads (handleMessage e (InMsg.binary bytes) st).calls
        = [st.history ++ [⟨Role.user, t⟩]]) := by
  constructor
  · obtain ⟨tr, ch, sy⟩ := env
    cases tr <;> cases ch <;> cases sy <;> simp_all [apiVoice, chatPayloads]
  · intro e st bytes h1 h2
    obtain ⟨tc, tr, ch, sy⟩ := e
    cases tc <;> cases tr <;> cases ch <;> cases sy <;>
      simp_all [handleMessage, chatPayloads]

/-- C10 witness: a concrete upload produces the single-user-turn payload,
while a concrete live run sends the system-prefixed history. -/
theorem api_chat_single_user_message_witness :
    apiEnvOk.transcribe = StepRes.ok "hello" ∧
    chatPayloads (apiVoice apiEnvOk true).2 = [[⟨Role.user, "hello"⟩]] ∧
    chatPayloads (handleMessage envOk (InMsg.binary [1]) initConnState).calls
      = [[systemTurn, ⟨Role.user, "hello"⟩]] := by
  have h := api_chat_single_user_message apiEnvOk "hello" rfl
  have h2 := h.2 envOk initConnState [1] rfl rfl
  exact ⟨rfl, h.1, by simpa [initConnState] using h2⟩

end Claims

end AudioCheck
